import Mathlib

/-!
Shallow embedding of the Stream Deck Twitch moderation plugin sources:
the WebSocket adapter classes of the shared library file
(StreamDeckPlugin and StreamDeckPropertyInspector), the
TwitchModPropertyInspector of pi/js/property-inspector.js, and the
validation helpers of plugin/libs/js/utils.js.  JavaScript objects sent
over the socket are modelled by the JVal type; DOM form inputs are
modelled as optional string values (none means the element is absent).
-/

/-- JSON-style values as built by the JavaScript sources: null, booleans,
integers, strings and objects with ordered fields.  Arrays never occur in
the envelopes this code builds, so they are omitted. -/
inductive JVal where
  | jnull : JVal
  | jbool : Bool → JVal
  | jint : Int → JVal
  | jstr : String → JVal
  | jobj : List (String × JVal) → JVal

/-- First-match association lookup, the behaviour of reading a field of a
JavaScript object literal without duplicate keys. -/
def jAssoc : List (String × JVal) → String → Option JVal
  | [], _ => none
  | (k, v) :: rest, key => if k = key then some v else jAssoc rest key

/-- Property access data.field in JavaScript: undefined (none) when the
value is not an object or the field is missing. -/
def JVal.getField : JVal → String → Option JVal
  | JVal.jobj fields, key => jAssoc fields key
  | _, _ => none

/-- JavaScript falsiness of a defined value (null, false, 0 and the empty
string are falsy). -/
def JVal.isFalsy : JVal → Bool
  | JVal.jnull => true
  | JVal.jbool b => !b
  | JVal.jint n => n == 0
  | JVal.jstr s => s == ""
  | JVal.jobj _ => false

/-- The JavaScript expression v or-else d as in data.payload or-else an
empty object: an undefined or falsy left operand yields the default. -/
def jsOr (v : Option JVal) (d : JVal) : JVal :=
  match v with
  | none => d
  | some x => if x.isFalsy then d else x

/-- JSON.stringify of a nullable string field of the adapter state. -/
def jso : Option String → JVal
  | some s => JVal.jstr s
  | none => JVal.jnull

/-- WebSocket ready states (the numeric constants of the browser API). -/
inductive ReadyState where
  | CONNECTING : ReadyState
  | OPEN : ReadyState
  | CLOSING : ReadyState
  | CLOSED : ReadyState
deriving DecidableEq

/-- The observable part of a browser WebSocket used by this code. -/
structure WebSock where
  readyState : ReadyState
deriving DecidableEq

/-- Does an optional socket pass the guard
websocket and websocket.readyState === WebSocket.OPEN used by every
outbound helper? -/
def sockIsOpen : Option WebSock → Bool
  | some ws => ws.readyState = ReadyState.OPEN
  | none => false

/-- State of the StreamDeckPlugin class of the shared library file
(fields of its constructor). -/
structure StreamDeckPlugin where
  websocket : Option WebSock
  pluginUUID : Option String
  registerEventName : Option String

/-- StreamDeckPlugin.send: stringify and transmit only when the socket
exists and is open, otherwise do nothing.  The returned list holds the
frames transmitted (as structured values before stringification); the
state is returned unchanged because the method mutates nothing. -/
def StreamDeckPlugin.send (p : StreamDeckPlugin) (j : JVal) :
    StreamDeckPlugin × List JVal :=
  if sockIsOpen p.websocket then (p, [j]) else (p, [])

/-- The registration envelope built by the register methods of both
library adapter classes. -/
def registerFrame (regEvent uuid : Option String) : JVal :=
  JVal.jobj [("event", jso regEvent), ("uuid", jso uuid)]

/-- StreamDeckPlugin.register: send the registration envelope. -/
def StreamDeckPlugin.register (p : StreamDeckPlugin) :
    StreamDeckPlugin × List JVal :=
  p.send (registerFrame p.registerEventName p.pluginUUID)

/-- StreamDeckPlugin.connect followed by the onopen callback of the now
open socket: store the connect arguments, then register and run the
onConnected hook (a no-op in the class).  Returns the resulting state and
every frame transmitted by the onopen handler, in order. -/
def StreamDeckPlugin.afterConnectOpen (p : StreamDeckPlugin)
    (inPluginUUID inRegisterEvent : String) : StreamDeckPlugin × List JVal :=
  let p1 : StreamDeckPlugin :=
    { p with
      pluginUUID := some inPluginUUID
      registerEventName := some inRegisterEvent
      websocket := some ⟨ReadyState.OPEN⟩ }
  p1.register

/-- State of the StreamDeckPropertyInspector class of the shared library
file. -/
structure StreamDeckPropertyInspector where
  websocket : Option WebSock
  uuid : Option String
  registerEventName : Option String
  actionInfo : Option JVal

/-- StreamDeckPropertyInspector.send: identical guard to the plugin
class. -/
def StreamDeckPropertyInspector.send (p : StreamDeckPropertyInspector)
    (j : JVal) : StreamDeckPropertyInspector × List JVal :=
  if sockIsOpen p.websocket then (p, [j]) else (p, [])

/-- StreamDeckPropertyInspector.register. -/
def StreamDeckPropertyInspector.register (p : StreamDeckPropertyInspector) :
    StreamDeckPropertyInspector × List JVal :=
  p.send (registerFrame p.registerEventName p.uuid)

/-- StreamDeckPropertyInspector.connect followed by the onopen callback:
register, then the no-op onConnected hook. -/
def StreamDeckPropertyInspector.afterConnectOpen
    (p : StreamDeckPropertyInspector) (inUUID inRegisterEvent : String) :
    StreamDeckPropertyInspector × List JVal :=
  let p1 : StreamDeckPropertyInspector :=
    { p with
      uuid := some inUUID
      registerEventName := some inRegisterEvent
      websocket := some ⟨ReadyState.OPEN⟩ }
  p1.register

/-- State of the TwitchModPropertyInspector class of
pi/js/property-inspector.js. -/
structure TwitchModPI where
  websocket : Option WebSock
  uuid : Option String
  actionInfo : Option JVal
  settings : JVal
  globalSettings : JVal

/-- A guarded raw transmission, the pattern
if websocket and readyState open then websocket.send(JSON.stringify(j))
repeated in every outbound method of TwitchModPropertyInspector. -/
def TwitchModPI.guardedSend (p : TwitchModPI) (j : JVal) : List JVal :=
  if sockIsOpen p.websocket then [j] else []

/-- TwitchModPropertyInspector.requestSettings. -/
def TwitchModPI.requestSettings (p : TwitchModPI) : List JVal :=
  p.guardedSend (JVal.jobj [("event", JVal.jstr "getSettings"), ("context", jso p.uuid)])

/-- TwitchModPropertyInspector.requestGlobalSettings. -/
def TwitchModPI.requestGlobalSettings (p : TwitchModPI) : List JVal :=
  p.guardedSend (JVal.jobj [("event", JVal.jstr "getGlobalSettings"), ("context", jso p.uuid)])

/-- TwitchModPropertyInspector.connectElgatoStreamDeckSocket followed by
the onopen callback: store the uuid and parsed action info, open the
socket, then inside onopen send the registration envelope directly on the
socket, request the global settings and request the per-action
settings, in that order. -/
def TwitchModPI.afterConnectOpen (p : TwitchModPI)
    (inUUID inRegisterEvent : String) (parsedActionInfo : JVal) :
    TwitchModPI × List JVal :=
  let p1 : TwitchModPI :=
    { p with
      uuid := some inUUID
      actionInfo := some parsedActionInfo
      websocket := some ⟨ReadyState.OPEN⟩ }
  let reg : JVal := JVal.jobj [("event", JVal.jstr inRegisterEvent), ("uuid", JVal.jstr inUUID)]
  (p1, [reg] ++ p1.requestGlobalSettings ++ p1.requestSettings)

/-- The event field of an envelope, when it is a string. -/
def frameEvent (j : JVal) : Option String :=
  match j.getField "event" with
  | some (JVal.jstr e) => some e
  | _ => none

/-- The handler invocations StreamDeckPlugin.handleMessage can make, one
constructor per case of its switch statement, carrying exactly the
argument expressions of the source (absent JavaScript values are none). -/
inductive PluginCall where
  | onSettings : Option JVal → Option JVal → Option JVal → Option JVal → PluginCall
  | onGlobalSettings : Option JVal → PluginCall
  | onKeyDown : Option JVal → Option JVal → Option JVal → Option JVal → Option JVal → Option JVal → PluginCall
  | onKeyUp : Option JVal → Option JVal → Option JVal → Option JVal → Option JVal → Option JVal → PluginCall
  | onWillAppear : Option JVal → Option JVal → Option JVal → Option JVal → Option JVal → Option JVal → PluginCall
  | onWillDisappear : Option JVal → Option JVal → Option JVal → Option JVal → Option JVal → Option JVal → PluginCall
  | onTitleParametersDidChange : Option JVal → Option JVal → Option JVal → Option JVal → PluginCall
  | onDeviceDidConnect : Option JVal → Option JVal → PluginCall
  | onDeviceDidDisconnect : Option JVal → PluginCall
  | onApplicationDidLaunch : Option JVal → PluginCall
  | onApplicationDidTerminate : Option JVal → PluginCall
  | onSystemDidWakeUp : PluginCall
  | onPropertyInspectorDidAppear : Option JVal → Option JVal → Option JVal → PluginCall
  | onPropertyInspectorDidDisappear : Option JVal → Option JVal → Option JVal → PluginCall
  | onSendToPlugin : Option JVal → JVal → Option JVal → Option JVal → PluginCall

/-- The event strings recognized by the switch of
StreamDeckPlugin.handleMessage, in source order.  Note that
sendToPropertyInspector has no case there. -/
def pluginRecognizedEvents : List String :=
  ["didReceiveSettings", "didReceiveGlobalSettings", "keyDown", "keyUp",
   "willAppear", "willDisappear", "titleParametersDidChange",
   "deviceDidConnect", "deviceDidDisconnect", "applicationDidLaunch",
   "applicationDidTerminate", "systemDidWakeUp",
   "propertyInspectorDidAppear", "propertyInspectorDidDisappear",
   "sendToPlugin"]

/-- The switch of StreamDeckPlugin.handleMessage as a lookup from the
event string to the handler invocation; no case matches gives none. -/
def pluginDispatch (e : String) (context payload0 action device deviceInfo : Option JVal) :
    Option PluginCall :=
  let payload := jsOr payload0 (JVal.jobj [])
  if e = "didReceiveSettings" then
    some (PluginCall.onSettings context (payload.getField "settings")
      (payload.getField "coordinates") (payload.getField "isInMultiAction"))
  else if e = "didReceiveGlobalSettings" then
    some (PluginCall.onGlobalSettings (payload.getField "settings"))
  else if e = "keyDown" then
    some (PluginCall.onKeyDown context (payload.getField "settings")
      (payload.getField "coordinates") (payload.getField "userDesiredState")
      (payload.getField "state") (payload.getField "isInMultiAction"))
  else if e = "keyUp" then
    some (PluginCall.onKeyUp context (payload.getField "settings")
      (payload.getField "coordinates") (payload.getField "userDesiredState")
      (payload.getField "state") (payload.getField "isInMultiAction"))
  else if e = "willAppear" then
    some (PluginCall.onWillAppear context (payload.getField "settings")
      (payload.getField "coordinates") action device (payload.getField "isInMultiAction"))
  else if e = "willDisappear" then
    some (PluginCall.onWillDisappear context (payload.getField "settings")
      (payload.getField "coordinates") action device (payload.getField "isInMultiAction"))
  else if e = "titleParametersDidChange" then
    some (PluginCall.onTitleParametersDidChange context (payload.getField "title")
      (payload.getField "titleParameters") (payload.getField "state"))
  else if e = "deviceDidConnect" then
    some (PluginCall.onDeviceDidConnect device deviceInfo)
  else if e = "deviceDidDisconnect" then
    some (PluginCall.onDeviceDidDisconnect device)
  else if e = "applicationDidLaunch" then
    some (PluginCall.onApplicationDidLaunch (payload.getField "application"))
  else if e = "applicationDidTerminate" then
    some (PluginCall.onApplicationDidTerminate (payload.getField "application"))
  else if e = "systemDidWakeUp" then
    some PluginCall.onSystemDidWakeUp
  else if e = "propertyInspectorDidAppear" then
    some (PluginCall.onPropertyInspectorDidAppear context action device)
  else if e = "propertyInspectorDidDisappear" then
    some (PluginCall.onPropertyInspectorDidDisappear context action device)
  else if e = "sendToPlugin" then
    some (PluginCall.onSendToPlugin context payload action device)
  else
    none

/-- StreamDeckPlugin.handleMessage: read the envelope fields and dispatch
on the event string.  The method mutates no state; it returns the handler
invocation it makes, if any (all default handlers are empty). -/
def StreamDeckPlugin.handleMessage (p : StreamDeckPlugin) (data : JVal) :
    StreamDeckPlugin × Option PluginCall :=
  match data.getField "event" with
  | some (JVal.jstr e) =>
      (p, pluginDispatch e (data.getField "context") (data.getField "payload")
            (data.getField "action") (data.getField "device") (data.getField "deviceInfo"))
  | _ => (p, none)

/-- The single handler invocation StreamDeckPropertyInspector can make. -/
inductive PICall where
  | onSendToPropertyInspector : JVal → PICall

/-- StreamDeckPropertyInspector.handleMessage: its switch has exactly one
case, sendToPropertyInspector, which receives the payload after the
or-else empty object default. -/
def StreamDeckPropertyInspector.handleMessage
    (p : StreamDeckPropertyInspector) (data : JVal) :
    StreamDeckPropertyInspector × Option PICall :=
  match data.getField "event" with
  | some (JVal.jstr e) =>
      if e = "sendToPropertyInspector" then
        (p, some (PICall.onSendToPropertyInspector
              (jsOr (data.getField "payload") (JVal.jobj []))))
      else (p, none)
  | _ => (p, none)

/-- Value of a hexadecimal digit character, if it is one. -/
def hexDigitVal (c : Char) : Option Nat :=
  if c.isDigit then some (c.toNat - 48)
  else if 97 ≤ c.toNat ∧ c.toNat ≤ 102 then some (c.toNat - 87)
  else if 65 ≤ c.toNat ∧ c.toNat ≤ 70 then some (c.toNat - 55)
  else none

/-- Is the character a hexadecimal digit? -/
def isHexDigit (c : Char) : Bool :=
  (hexDigitVal c).isSome

/-- Value of a list of digit values read most significant first. -/
def digitsToNatBase (b : Nat) (vals : List Nat) : Nat :=
  vals.foldl (fun a d => b * a + d) 0

/-- Magnitude part of the JavaScript parseInt builtin with no radix
argument: a 0x or 0X head switches to hexadecimal, otherwise the maximal
leading run of decimal digits is taken; no digits at all gives NaN
(none). -/
def jsParseIntMag (cs : List Char) : Option Nat :=
  if cs.head? = some '0' ∧ (cs.tail.head? = some 'x' ∨ cs.tail.head? = some 'X') then
    let ds := (cs.tail.tail).takeWhile isHexDigit
    if ds.isEmpty then none
    else some (digitsToNatBase 16 (ds.map (fun c => (hexDigitVal c).getD 0)))
  else
    let ds := cs.takeWhile Char.isDigit
    if ds.isEmpty then none
    else some (digitsToNatBase 10 (ds.map (fun c => c.toNat - 48)))

/-- The JavaScript parseInt builtin applied to a string, with NaN
modelled as none: skip leading whitespace, read an optional sign, then
the magnitude; anything after the numeric part is ignored. -/
def jsParseInt (s : String) : Option Int :=
  let cs := s.data.dropWhile Char.isWhitespace
  if cs.head? = some '-' then (jsParseIntMag cs.tail).map (fun n => -(n : Int))
  else if cs.head? = some '+' then (jsParseIntMag cs.tail).map (fun n => (n : Int))
  else (jsParseIntMag cs).map (fun n => (n : Int))

/-- The expression parseInt(value) or-else d of saveSettings: the default
replaces both a failed parse (NaN) and a parsed zero, because the or-else
operator tests JavaScript truthiness. -/
def parseIntOr (v : String) (d : Int) : Int :=
  match jsParseInt v with
  | none => d
  | some n => if n = 0 then d else n

/-- The form inputs read by TwitchModPropertyInspector, each none when
document.getElementById finds no such element, otherwise the element
value string. -/
structure PIForm where
  twitchChannel : Option String
  twitchToken : Option String
  twitchBroadcasterId : Option String
  twitchModeratorId : Option String
  twitchClientId : Option String
  shieldDuration : Option String
  followDuration : Option String
  slowDelay : Option String

/-- One optional numeric entry of the settings object of saveSettings. -/
def settingsEntry (field : Option String) (key : String) (d : Int) :
    List (String × JVal) :=
  match field with
  | some v => [(key, JVal.jint (parseIntOr v d))]
  | none => []

/-- The settings object assembled by saveSettings from the form, in the
source order of its keys, with defaults 300, 10 and 3. -/
def settingsPayload (f : PIForm) : List (String × JVal) :=
  settingsEntry f.shieldDuration "shieldDuration" 300 ++
  settingsEntry f.followDuration "followDuration" 10 ++
  settingsEntry f.slowDelay "slowDelay" 3

/-- TwitchModPropertyInspector.saveSettings: assemble the settings
object, transmit the setSettings envelope when the socket is open, and
store the object locally in this.settings. -/
def TwitchModPI.saveSettings (p : TwitchModPI) (f : PIForm) :
    TwitchModPI × List JVal :=
  let s := settingsPayload f
  let frames := p.guardedSend (JVal.jobj
    [("event", JVal.jstr "setSettings"), ("context", jso p.uuid),
     ("payload", JVal.jobj s)])
  ({ p with settings := JVal.jobj s }, frames)

/-- Delete the first occurrence of a character from a character list;
this is the JavaScript expression s.replace(c, empty string) for a
one-character search string: only the first occurrence is affected and a
string with no occurrence is returned unchanged. -/
def removeFirstChar (c : Char) : List Char → List Char
  | [] => []
  | x :: xs => if x = c then xs else x :: removeFirstChar c xs

/-- The JavaScript String.prototype.trim builtin: drop whitespace from
both ends. -/
def jsTrim (s : String) : String :=
  String.mk (((s.data.dropWhile Char.isWhitespace).reverse.dropWhile
    Char.isWhitespace).reverse)

/-- The expression value.trim().replace(at-sign, empty string) applied to
the channel input by saveGlobalSettings. -/
def channelStore (v : String) : String :=
  String.mk (removeFirstChar '@' (jsTrim v).data)

/-- One optional string entry of the global settings object. -/
def globalEntry (field : Option String) (key : String) (tr : String → String) :
    List (String × JVal) :=
  match field with
  | some v => [(key, JVal.jstr (tr v))]
  | none => []

/-- The global settings object assembled by saveGlobalSettings, in source
key order: the channel is trimmed and has its first at-sign removed, the
other fields are only trimmed. -/
def globalSettingsPayload (f : PIForm) : List (String × JVal) :=
  globalEntry f.twitchChannel "twitchChannel" channelStore ++
  globalEntry f.twitchToken "twitchToken" jsTrim ++
  globalEntry f.twitchBroadcasterId "twitchBroadcasterId" jsTrim ++
  globalEntry f.twitchModeratorId "twitchModeratorId" jsTrim ++
  globalEntry f.twitchClientId "twitchClientId" jsTrim

/-- One optional object entry, dropped when the value is undefined, as
JSON.stringify drops undefined fields. -/
def jEntryOpt (key : String) (v : Option JVal) : List (String × JVal) :=
  match v with
  | some x => [(key, x)]
  | none => []

/-- TwitchModPropertyInspector.sendToPlugin: wrap the payload in a
sendToPlugin envelope carrying this.actionInfo.action and the own uuid as
context, transmitted only when the socket is open. -/
def TwitchModPI.sendToPlugin (p : TwitchModPI) (payload : JVal) : List JVal :=
  p.guardedSend (JVal.jobj
    ([("event", JVal.jstr "sendToPlugin")] ++
     jEntryOpt "action"
       (match p.actionInfo with
        | some a => a.getField "action"
        | none => none) ++
     [("context", jso p.uuid), ("payload", payload)]))

/-- TwitchModPropertyInspector.saveGlobalSettings: assemble the global
settings object, transmit the setGlobalSettings envelope when open, relay
the same fields to the plugin behind an action tag, and store the object
locally. -/
def TwitchModPI.saveGlobalSettings (p : TwitchModPI) (f : PIForm) :
    TwitchModPI × List JVal :=
  let s := globalSettingsPayload f
  let frames1 := p.guardedSend (JVal.jobj
    [("event", JVal.jstr "setGlobalSettings"), ("context", jso p.uuid),
     ("payload", JVal.jobj s)])
  let frames2 := p.sendToPlugin (JVal.jobj
    (("action", JVal.jstr "saveGlobalSettings") :: s))
  ({ p with globalSettings := JVal.jobj s }, frames1 ++ frames2)

/-- Is the character matched by the character class of the username
regex, a to z in both cases, digits and underscore? -/
def isWordChar (c : Char) : Bool :=
  c.isAlphanum || c = '_'

/-- The test of the anchored username regex: between 4 and 25 word
characters. -/
def regexUsernameTest (s : String) : Bool :=
  decide (4 ≤ s.data.length) && decide (s.data.length ≤ 25) &&
    s.data.all isWordChar

/-- The test of the anchored all-digits regex used for the two ID
fields: one or more decimal digits and nothing else. -/
def regexAllDigits (s : String) : Bool :=
  !s.data.isEmpty && s.data.all Char.isDigit

/-- TwitchModPropertyInspector.validateTwitchUsername: remove the first
at-sign, trim, then test the username regex. -/
def piValidateTwitchUsername (username : String) : Bool :=
  regexUsernameTest (jsTrim (String.mk (removeFirstChar '@' username.data)))

/-- Utils.validateTwitchUsername of plugin/libs/js/utils.js: test the
username regex directly on the argument, with no stripping or
trimming. -/
def Utils.validateTwitchUsername (username : String) : Bool :=
  regexUsernameTest username

/-- Channel error list of validateInputs. -/
def channelErrs (f : PIForm) : List String :=
  match f.twitchChannel with
  | some v => if !piValidateTwitchUsername v then ["Invalid Twitch channel name"] else []
  | none => []

/-- Token error list of validateInputs: only presence is checked. -/
def tokenErrs (f : PIForm) : List String :=
  match f.twitchToken with
  | some v => if v = "" then ["OAuth token is required"] else []
  | none => []

/-- Broadcaster ID error list of validateInputs: the regex is applied to
the raw element value. -/
def broadcasterIdErrs (f : PIForm) : List String :=
  match f.twitchBroadcasterId with
  | some v => if !regexAllDigits v then ["Broadcaster ID must be numeric"] else []
  | none => []

/-- Moderator ID error list of validateInputs. -/
def moderatorIdErrs (f : PIForm) : List String :=
  match f.twitchModeratorId with
  | some v => if !regexAllDigits v then ["Moderator ID must be numeric"] else []
  | none => []

/-- TwitchModPropertyInspector.validateInputs: collect the four error
lists in source order; the returned flag is true exactly when no check
failed. -/
def validateInputs (f : PIForm) : Bool × List String :=
  let errs := channelErrs f ++ tokenErrs f ++ broadcasterIdErrs f ++ moderatorIdErrs f
  (errs.isEmpty, errs)

/-- The delay in milliseconds passed to setTimeout by
testTwitchConnection. -/
def testTimeoutMs : Nat := 10000

/-- The DOM elements touched by the connection test: presence flags for
the testConnection button and the connectionStatus element, and their
mutable text, class and disabled attributes. -/
structure TestUI where
  hasTestButton : Bool
  hasStatusElem : Bool
  buttonDisabled : Bool
  buttonText : String
  statusText : String
  statusClass : String

/-- TwitchModPropertyInspector.testTwitchConnection: disable the button
and show the testing status, then relay a testConnection request with the
stored credentials to the plugin.  The armed timeout is modelled
separately by TestUI.timeoutFire. -/
def TwitchModPI.testTwitchConnection (p : TwitchModPI) (ui : TestUI) :
    TestUI × List JVal :=
  let ui1 := if ui.hasTestButton then
    { ui with buttonDisabled := true, buttonText := "Testing..." } else ui
  let ui2 := if ui.hasStatusElem then
    { ui1 with statusText := "Testing connection...", statusClass := "status-testing" }
    else ui1
  let frames := p.sendToPlugin (JVal.jobj
    ([("action", JVal.jstr "testConnection")] ++
     jEntryOpt "twitchToken" (p.globalSettings.getField "twitchToken") ++
     jEntryOpt "twitchClientId" (p.globalSettings.getField "twitchClientId") ++
     jEntryOpt "twitchBroadcasterId" (p.globalSettings.getField "twitchBroadcasterId")))
  (ui2, frames)

/-- The setTimeout callback armed by testTwitchConnection, run
testTimeoutMs milliseconds later: only when the button still exists and
is still disabled does it re-enable the button, restore its caption and
show the timed-out status. -/
def TestUI.timeoutFire (ui : TestUI) : TestUI :=
  if ui.hasTestButton && ui.buttonDisabled then
    let ui1 := { ui with buttonDisabled := false, buttonText := "Test Connection" }
    if ui.hasStatusElem then
      { ui1 with statusText := "Test timed out", statusClass := "status-error" }
    else ui1
  else ui

/-- TwitchModPropertyInspector.handleConnectionTestResult, invoked when a
connectionTest reply arrives: re-enable the button and show the reply
status; an absent or empty message falls back to the fixed success or
failure text. -/
def TestUI.handleConnectionTestResult (ui : TestUI) (success : Bool)
    (message : Option String) : TestUI :=
  let ui1 := if ui.hasTestButton then
    { ui with buttonDisabled := false, buttonText := "Test Connection" } else ui
  if ui.hasStatusElem then
    { ui1 with
      statusText :=
        match message with
        | some m =>
            if m = "" then (if success then "Connected successfully!" else "Connection failed") else m
        | none => if success then "Connected successfully!" else "Connection failed"
      statusClass := if success then "status-success" else "status-error" }
  else ui1

/-- The closing curly brace character, written by its code point. -/
def braceClose : Char := Char.ofNat 125

/-- The decimal digit character of a value below ten. -/
def digitChar (n : Nat) : Char := Char.ofNat (48 + n)

/-- Fuel-driven decimal printing helper; with fuel at least the number
being printed it yields the digits most significant first. -/
def natCharsAux : Nat → Nat → List Char
  | 0, n => [digitChar n]
  | fuel + 1, n =>
      if n < 10 then [digitChar n]
      else natCharsAux fuel (n / 10) ++ [digitChar (n % 10)]

/-- Decimal digit characters of a natural number, as JSON.stringify
prints it. -/
def natChars (n : Nat) : List Char := natCharsAux n n

/-- Decimal character representation of an integer, as JSON.stringify
prints it: a minus sign followed by the magnitude when negative. -/
def intChars (v : Int) : List Char :=
  if v < 0 then '-' :: natChars v.natAbs else natChars v.toNat

/-- Read a maximal run of decimal digits from the head of the input;
none when there is no digit. -/
def parseJsonNat (cs : List Char) : Option (Nat × List Char) :=
  let ds := cs.takeWhile Char.isDigit
  if ds.isEmpty then none
  else some (digitsToNatBase 10 (ds.map (fun c => c.toNat - 48)),
             cs.dropWhile Char.isDigit)

/-- Read a JSON integer, an optional minus sign and a digit run. -/
def parseJsonInt (cs : List Char) : Option (Int × List Char) :=
  if cs.head? = some '-' then
    (parseJsonNat cs.tail).map (fun pr => (-(pr.1 : Int), pr.2))
  else
    (parseJsonNat cs).map (fun pr => ((pr.1 : Int), pr.2))

/-- Fuel-driven reader of the entries of a flat JSON object of integer
fields, entered after the opening brace; returns the entries and the
input following the closing brace.  The fuel only bounds recursion depth;
parseEntries supplies enough for any input. -/
def parseEntriesAux : Nat → List Char → Option (List (String × Int) × List Char)
  | 0, _ => none
  | fuel + 1, cs =>
    if cs.head? = some braceClose then some ([], cs.tail)
    else if cs.head? = some '"' then
      let cs1 := cs.tail
      let key := cs1.takeWhile (fun c => c != '"')
      let cs2 := cs1.dropWhile (fun c => c != '"')
      if cs2.head? = some '"' then
        let cs2a := cs2.tail
        if cs2a.head? = some ':' then
          match parseJsonInt cs2a.tail with
          | some (v, cs4) =>
            if cs4.head? = some ',' then
              match parseEntriesAux fuel cs4.tail with
              | some (kvs, rest) => some ((String.mk key, v) :: kvs, rest)
              | none => none
            else if cs4.head? = some braceClose then
              some ([(String.mk key, v)], cs4.tail)
            else none
          | none => none
        else none
      else none
    else none

/-- Entry reader with enough fuel for its input. -/
def parseEntries (cs : List Char) : Option (List (String × Int) × List Char) :=
  parseEntriesAux cs.length cs

/-- The characters of the entries of a flat JSON object of integer
fields as JSON.stringify writes them, from after the opening brace up to
and including the closing brace. -/
def encodeEntriesChars : List (String × Int) → List Char
  | [] => [braceClose]
  | [(k, v)] => '"' :: (k.data ++ '"' :: ':' :: (intChars v ++ [braceClose]))
  | (k, v) :: e :: rest =>
      '"' :: (k.data ++ '"' :: ':' :: (intChars v ++ ',' :: encodeEntriesChars (e :: rest)))

/-- The characters JSON.stringify puts before the context string in the
setSettings envelope of saveSettings. -/
def envHeadChars : List Char :=
  "\x7b\"event\":\"setSettings\",\"context\":\"".data

/-- The characters between the context string and the payload object. -/
def envMidChars : List Char :=
  "\",\"payload\":\x7b".data

/-- JSON.stringify of the setSettings envelope of saveSettings for a
context string and a payload mapping of integer fields, exact for
context strings and keys needing no escaping. -/
def encodeSetSettingsEnv (ctx : String) (kvs : List (String × Int)) : String :=
  String.mk (envHeadChars ++ ctx.data ++ envMidChars ++
    encodeEntriesChars kvs ++ [braceClose])

/-- JSON.parse of such an envelope text on the receiving side, recovering
the context string and the payload mapping. -/
def decodeSetSettingsEnv (s : String) : Option (String × List (String × Int)) :=
  let cs := s.data
  if cs.take envHeadChars.length = envHeadChars then
    let cs1 := cs.drop envHeadChars.length
    let ctx := cs1.takeWhile (fun c => c != '"')
    let cs2 := cs1.dropWhile (fun c => c != '"')
    if cs2.take envMidChars.length = envMidChars then
      match parseEntries (cs2.drop envMidChars.length) with
      | some (kvs, rest) =>
          if rest = [braceClose] then some (String.mk ctx, kvs) else none
      | none => none
    else none
  else none

theorem digitChar_isDigit {d : Nat} (h : d < 10) : (digitChar d).isDigit = true := by
  interval_cases d <;> decide

theorem digitChar_sub {d : Nat} (h : d < 10) : (digitChar d).toNat - 48 = d := by
  interval_cases d <;> decide

theorem natCharsAux_digits :
    ∀ fuel n, n ≤ fuel → ∀ c ∈ natCharsAux fuel n, c.isDigit = true := by
  intro fuel
  induction fuel with
  | zero =>
      intro n hn c hc
      have hn0 : n = 0 := Nat.le_zero.mp hn
      subst hn0
      simp only [natCharsAux, List.mem_singleton] at hc
      subst hc
      decide
  | succ f ih =>
      intro n hn c hc
      simp only [natCharsAux] at hc
      by_cases h10 : n < 10
      · rw [if_pos h10] at hc
        simp only [List.mem_singleton] at hc
        subst hc
        exact digitChar_isDigit h10
      · rw [if_neg h10] at hc
        rcases List.mem_append.mp hc with hL | hR
        · exact ih (n / 10) (by omega) c hL
        · simp only [List.mem_singleton] at hR
          subst hR
          exact digitChar_isDigit (by omega)

theorem natCharsAux_ne_nil : ∀ fuel n, natCharsAux fuel n ≠ [] := by
  intro fuel n
  cases fuel with
  | zero => simp [natCharsAux]
  | succ f =>
      simp only [natCharsAux]
      by_cases h10 : n < 10
      · rw [if_pos h10]; simp
      · rw [if_neg h10]; simp

theorem natCharsAux_val :
    ∀ fuel n, n ≤ fuel →
      digitsToNatBase 10 ((natCharsAux fuel n).map (fun c => c.toNat - 48)) = n := by
  intro fuel
  induction fuel with
  | zero =>
      intro n hn
      have hn0 : n = 0 := Nat.le_zero.mp hn
      subst hn0
      decide
  | succ f ih =>
      intro n hn
      simp only [natCharsAux]
      by_cases h10 : n < 10
      · rw [if_pos h10]
        simp [digitsToNatBase, digitChar_sub h10]
      · rw [if_neg h10]
        rw [List.map_append, List.map_singleton]
        simp only [digitsToNatBase, List.foldl_append, List.foldl_cons, List.foldl_nil]
        have hrec := ih (n / 10) (by omega)
        simp only [digitsToNatBase] at hrec
        rw [hrec, digitChar_sub (by omega)]
        omega

theorem natChars_digits (n : Nat) : ∀ c ∈ natChars n, c.isDigit = true :=
  natCharsAux_digits n n (Nat.le_refl n)

theorem natChars_ne_nil (n : Nat) : natChars n ≠ [] :=
  natCharsAux_ne_nil n n

theorem natChars_val (n : Nat) :
    digitsToNatBase 10 ((natChars n).map (fun c => c.toNat - 48)) = n :=
  natCharsAux_val n n (Nat.le_refl n)

theorem takeWhile_app_all {p : Char → Bool} :
    ∀ (l1 l2 : List Char), (∀ c ∈ l1, p c = true) →
      (∀ c, l2.head? = some c → p c = false) →
      (l1 ++ l2).takeWhile p = l1 ∧ (l1 ++ l2).dropWhile p = l2 := by
  intro l1
  induction l1 with
  | nil =>
      intro l2 _ h2
      cases l2 with
      | nil => simp
      | cons x xs =>
          have hx : p x = false := h2 x rfl
          simp [List.takeWhile_cons, List.dropWhile_cons, hx]
  | cons x xs ih =>
      intro l2 h1 h2
      have hx : p x = true := h1 x (List.mem_cons_self x xs)
      have hrest := ih l2 (fun c hc => h1 c (List.mem_cons_of_mem x hc)) h2
      simp [List.takeWhile_cons, List.dropWhile_cons, hx, hrest.1, hrest.2]

theorem parseJsonNat_enc (n : Nat) (rest : List Char)
    (h : ∀ c, rest.head? = some c → c.isDigit = false) :
    parseJsonNat (natChars n ++ rest) = some (n, rest) := by
  obtain ⟨htw, hdw⟩ := takeWhile_app_all (natChars n) rest (natChars_digits n) h
  simp only [parseJsonNat, htw, hdw]
  rw [if_neg (by simp [List.isEmpty_iff, natChars_ne_nil n])]
  rw [natChars_val n]

theorem parseJsonInt_enc (v : Int) (rest : List Char)
    (h : ∀ c, rest.head? = some c → c.isDigit = false) :
    parseJsonInt (intChars v ++ rest) = some (v, rest) := by
  by_cases hv : v < 0
  · simp only [intChars, if_pos hv, List.cons_append]
    simp only [parseJsonInt, List.head?_cons, Option.some.injEq, List.tail_cons]
    rw [if_pos trivial, parseJsonNat_enc v.natAbs rest h]
    have habs : (-(v.natAbs : Int)) = v := by omega
    show some ((-(v.natAbs : Int), rest)) = some (v, rest)
    rw [habs]
  · obtain ⟨d, t, hdt⟩ := List.exists_cons_of_ne_nil (natChars_ne_nil v.toNat)
    have hd : d.isDigit = true := by
      have := natChars_digits v.toNat d
      rw [hdt] at this
      exact this (List.mem_cons_self d t)
    have hdne : d ≠ '-' := by
      intro hcon
      rw [hcon] at hd
      exact absurd hd (by decide)
    simp only [intChars, if_neg hv]
    simp only [parseJsonInt, hdt, List.cons_append, List.head?_cons]
    rw [if_neg (by simp [hdne])]
    rw [← List.cons_append, ← hdt, parseJsonNat_enc v.toNat rest h]
    have htn : ((v.toNat : Int)) = v := by omega
    show some (((v.toNat : Int), rest)) = some (v, rest)
    rw [htn]

theorem parseEntriesAux_enc :
    ∀ (kvs : List (String × Int)) (tail : List Char) (fuel : Nat),
      kvs.length < fuel →
      (∀ kv ∈ kvs, ∀ c ∈ kv.1.data, c ≠ '"') →
      parseEntriesAux fuel (encodeEntriesChars kvs ++ tail) = some (kvs, tail) := by
  intro kvs
  induction kvs with
  | nil =>
      intro tail fuel hf _
      cases fuel with
      | zero => omega
      | succ f => simp [parseEntriesAux, encodeEntriesChars]
  | cons kv rest ih =>
      intro tail fuel hf hkeys
      obtain ⟨k, v⟩ := kv
      cases fuel with
      | zero => simp at hf
      | succ f =>
          have hkey : ∀ c ∈ k.data, ((fun c => c != '"') c) = true := by
            intro c hc
            have := hkeys (k, v) (List.mem_cons_self _ _) c hc
            simpa using this
          have hne1 : ¬ (('"' : Char) = braceClose) := by decide
          have hne2 : ¬ (braceClose = ',') := by decide
          have hmk : String.mk k.data = k := rfl
          cases rest with
          | nil =>
              obtain ⟨htw, hdw⟩ := takeWhile_app_all k.data
                ('"' :: ':' :: (intChars v ++ braceClose :: tail)) hkey
                (fun c hc => by
                  have hc2 : ('"' : Char) = c := by simpa using hc
                  rw [← hc2]
                  decide)
              have hpi := parseJsonInt_enc v (braceClose :: tail)
                (fun c hc => by
                  have hc2 : braceClose = c := by simpa using hc
                  rw [← hc2]
                  decide)
              simp only [encodeEntriesChars, List.cons_append, List.append_assoc,
                List.singleton_append, List.nil_append]
              simp [parseEntriesAux, htw, hdw, hpi, hne1, hne2, hmk]
          | cons e rest2 =>
              obtain ⟨htw, hdw⟩ := takeWhile_app_all k.data
                ('"' :: ':' :: (intChars v ++ ',' :: (encodeEntriesChars (e :: rest2) ++ tail)))
                hkey
                (fun c hc => by
                  have hc2 : ('"' : Char) = c := by simpa using hc
                  rw [← hc2]
                  decide)
              have hpi := parseJsonInt_enc v
                (',' :: (encodeEntriesChars (e :: rest2) ++ tail))
                (fun c hc => by
                  have hc2 : (',' : Char) = c := by simpa using hc
                  rw [← hc2]
                  decide)
              have hih := ih tail f (by simp at hf ⊢; omega)
                (fun kv2 h2 => hkeys kv2 (List.mem_cons_of_mem _ h2))
              simp only [encodeEntriesChars, List.cons_append, List.append_assoc,
                List.singleton_append, List.nil_append]
              simp [parseEntriesAux, htw, hdw, hpi, hih, hne1, hne2, hmk]

theorem encodeEntriesChars_len :
    ∀ kvs : List (String × Int), kvs.length < (encodeEntriesChars kvs).length := by
  intro kvs
  induction kvs with
  | nil => simp [encodeEntriesChars]
  | cons kv rest ih =>
      obtain ⟨k, v⟩ := kv
      cases rest with
      | nil => simp [encodeEntriesChars]
      | cons e rest2 =>
          simp only [encodeEntriesChars, List.length_cons, List.length_append] at ih ⊢
          omega

theorem parseEntries_enc (kvs : List (String × Int)) (tail : List Char)
    (hkeys : ∀ kv ∈ kvs, ∀ c ∈ kv.1.data, c ≠ '"') :
    parseEntries (encodeEntriesChars kvs ++ tail) = some (kvs, tail) := by
  unfold parseEntries
  apply parseEntriesAux_enc kvs tail _ _ hkeys
  have h1 := encodeEntriesChars_len kvs
  have h2 : (encodeEntriesChars kvs).length ≤ (encodeEntriesChars kvs ++ tail).length := by
    simp
  omega

theorem take_drop_len_app :
    ∀ (l1 l2 : List Char), (l1 ++ l2).take l1.length = l1 ∧ (l1 ++ l2).drop l1.length = l2 := by
  intro l1
  induction l1 with
  | nil => simp
  | cons x xs ih =>
      intro l2
      simp [ih l2]

theorem decodeSetSettingsEnv_enc (ctx : String) (kvs : List (String × Int))
    (hctx : ∀ c ∈ ctx.data, c ≠ '"')
    (hkeys : ∀ kv ∈ kvs, ∀ c ∈ kv.1.data, c ≠ '"') :
    decodeSetSettingsEnv (encodeSetSettingsEnv ctx kvs) = some (ctx, kvs) := by
  have hctxb : ∀ c ∈ ctx.data, ((fun c => c != '"') c) = true := by
    intro c hc
    simpa using hctx c hc
  have hmid : envMidChars = '"' :: (",\"payload\":\x7b".data) := rfl
  obtain ⟨htw, hdw⟩ := takeWhile_app_all ctx.data
    (envMidChars ++ (encodeEntriesChars kvs ++ [braceClose])) hctxb
    (fun c hc => by
      rw [hmid] at hc
      have hc2 : ('"' : Char) = c := by simpa using hc
      rw [← hc2]
      decide)
  have hpe := parseEntries_enc kvs [braceClose] hkeys
  have hdata : (encodeSetSettingsEnv ctx kvs).data =
      envHeadChars ++ (ctx.data ++ (envMidChars ++ (encodeEntriesChars kvs ++ [braceClose]))) := by
    simp [encodeSetSettingsEnv]
  have h1 := take_drop_len_app envHeadChars
    (ctx.data ++ (envMidChars ++ (encodeEntriesChars kvs ++ [braceClose])))
  have h2 := take_drop_len_app envMidChars (encodeEntriesChars kvs ++ [braceClose])
  simp only [decodeSetSettingsEnv, hdata, h1.1, h1.2, htw, hdw, h2.1, h2.2, hpe]
  simp

theorem removeFirstChar_of_not_mem {c : Char} :
    ∀ l : List Char, c ∉ l → removeFirstChar c l = l := by
  intro l
  induction l with
  | nil => intro; rfl
  | cons x xs ih =>
      intro h
      have hx : x ≠ c := fun hc => h (hc ▸ List.mem_cons_self x xs)
      have hxs : c ∉ xs := fun hc => h (List.mem_cons_of_mem x hc)
      simp [removeFirstChar, hx, ih hxs]

theorem removeFirstChar_append {c : Char} :
    ∀ (a b : List Char), c ∉ a → removeFirstChar c (a ++ c :: b) = a ++ b := by
  intro a
  induction a with
  | nil => intro b _; simp [removeFirstChar]
  | cons x xs ih =>
      intro b h
      have hx : x ≠ c := fun hc => h (hc ▸ List.mem_cons_self x xs)
      have hxs : c ∉ xs := fun hc => h (List.mem_cons_of_mem x hc)
      simp [removeFirstChar, hx, ih b hxs]

/-- C1 counterexample: at the concrete connect input below, the onopen
handler of the StreamDeckPlugin library adapter transmits exactly the
registration envelope and nothing else; in particular it sends no
getSettings and no getGlobalSettings request, contrary to the claim that
every adapter instance issues both immediately after registering. -/
theorem C1_counterexample :
    (StreamDeckPlugin.afterConnectOpen ⟨none, none, none⟩ "uuid-1" "registerPlugin").2 =
      [JVal.jobj [("event", JVal.jstr "registerPlugin"), ("uuid", JVal.jstr "uuid-1")]] ∧
    ((StreamDeckPlugin.afterConnectOpen ⟨none, none, none⟩ "uuid-1" "registerPlugin").2.any
      (fun fr => frameEvent fr == some "getSettings")) = false ∧
    ((StreamDeckPlugin.afterConnectOpen ⟨none, none, none⟩ "uuid-1" "registerPlugin").2.any
      (fun fr => frameEvent fr == some "getGlobalSettings")) = false := by
  refine ⟨rfl, rfl, rfl⟩

/-- C1 amended: when the open event fires, every adapter sends the
registration envelope with event set to the register event name and uuid
set to its instance uuid exactly once; only TwitchModPropertyInspector
then immediately sends a getGlobalSettings request followed by a
getSettings request, each with context equal to its own UUID, before
handling any inbound event, while the two library adapters
(StreamDeckPlugin and StreamDeckPropertyInspector) transmit nothing
further on open, their onConnected hook being a no-op. -/
theorem C1_amended_onopen_frames (p1 : StreamDeckPlugin)
    (p2 : StreamDeckPropertyInspector) (p3 : TwitchModPI)
    (uuid regEvent : String) (info : JVal) :
    (p1.afterConnectOpen uuid regEvent).2 =
      [JVal.jobj [("event", JVal.jstr regEvent), ("uuid", JVal.jstr uuid)]] ∧
    (p2.afterConnectOpen uuid regEvent).2 =
      [JVal.jobj [("event", JVal.jstr regEvent), ("uuid", JVal.jstr uuid)]] ∧
    (p3.afterConnectOpen uuid regEvent info).2 =
      [JVal.jobj [("event", JVal.jstr regEvent), ("uuid", JVal.jstr uuid)],
       JVal.jobj [("event", JVal.jstr "getGlobalSettings"), ("context", JVal.jstr uuid)],
       JVal.jobj [("event", JVal.jstr "getSettings"), ("context", JVal.jstr uuid)]] := by
  refine ⟨rfl, rfl, rfl⟩

/-- C4: every outbound send of the two library adapter classes, and the
guarded transmission pattern of TwitchModPropertyInspector, is a silent
no-op when the socket is absent or not open: nothing is transmitted,
nothing is queued, no error is raised and the adapter state is returned
unchanged.  The last conjunct ties the hypothesis to the wording of the
claim: the guard fails exactly when the websocket field is null or its
readyState differs from OPEN. -/
theorem C4_send_noop_when_not_open (p : StreamDeckPlugin)
    (q : StreamDeckPropertyInspector) (r : TwitchModPI) (j : JVal)
    (hp : sockIsOpen p.websocket = false) (hq : sockIsOpen q.websocket = false)
    (hr : sockIsOpen r.websocket = false) :
    p.send j = (p, []) ∧ q.send j = (q, []) ∧ r.guardedSend j = [] ∧
    (∀ w : Option WebSock, sockIsOpen w = false ↔
      (w = none ∨ ∀ ws, w = some ws → ws.readyState ≠ ReadyState.OPEN)) := by
  refine ⟨?_, ?_, ?_, ?_⟩
  · simp [StreamDeckPlugin.send, hp]
  · simp [StreamDeckPropertyInspector.send, hq]
  · simp [TwitchModPI.guardedSend, hr]
  · intro w
    cases w with
    | none => simp [sockIsOpen]
    | some ws => simp [sockIsOpen]

/-- C4 witness: closed instance with a null socket and a closed socket. -/
theorem C4_send_noop_when_not_open_witness :
    sockIsOpen (none : Option WebSock) = false ∧
    sockIsOpen (some ⟨ReadyState.CLOSED⟩) = false ∧
    StreamDeckPlugin.send ⟨none, none, none⟩ (JVal.jstr "x") = (⟨none, none, none⟩, []) ∧
    StreamDeckPropertyInspector.send ⟨some ⟨ReadyState.CLOSED⟩, none, none, none⟩ (JVal.jstr "x") =
      (⟨some ⟨ReadyState.CLOSED⟩, none, none, none⟩, []) ∧
    TwitchModPI.guardedSend ⟨none, none, none, JVal.jobj [], JVal.jobj []⟩ (JVal.jstr "x") = [] := by
  have h := C4_send_noop_when_not_open ⟨none, none, none⟩
    ⟨some ⟨ReadyState.CLOSED⟩, none, none, none⟩
    ⟨none, none, none, JVal.jobj [], JVal.jobj []⟩ (JVal.jstr "x") rfl rfl rfl
  exact ⟨rfl, rfl, h.1, h.2.1, h.2.2.1⟩

theorem channelErrs_sub (f : PIForm) :
    channelErrs f = [] ∨ channelErrs f = ["Invalid Twitch channel name"] := by
  unfold channelErrs
  cases f.twitchChannel with
  | none => exact Or.inl rfl
  | some v => by_cases h : piValidateTwitchUsername v <;> simp [h]

theorem tokenErrs_sub (f : PIForm) :
    tokenErrs f = [] ∨ tokenErrs f = ["OAuth token is required"] := by
  unfold tokenErrs
  cases f.twitchToken with
  | none => exact Or.inl rfl
  | some v => by_cases h : v = "" <;> simp [h]

/-- C2 counterexample: for the broadcaster ID input of digits surrounded
by whitespace, the trimmed value matches the all-digits regex, yet
validateInputs still appends the numeric-ID error, because the source
tests the raw element value; the claimed equivalence fails at this
input. -/
theorem C2_counterexample :
    ¬ (("Broadcaster ID must be numeric" ∉
          (validateInputs ⟨none, none, some " 123 ", none, none, none, none, none⟩).2) ↔
        regexAllDigits (jsTrim " 123 ") = true) := by
  decide

/-- C2 amended: validateInputs accepts a broadcaster or moderator ID,
appending no error message for it, if and only if the raw untrimmed
input matches the all-digits regex; digits surrounded by whitespace
therefore fail validation, and the input 123abc fails as well. -/
theorem C2_amended_id_validation (f : PIForm) (bv mv : String)
    (hb : f.twitchBroadcasterId = some bv) (hm : f.twitchModeratorId = some mv) :
    (("Broadcaster ID must be numeric" ∉ (validateInputs f).2) ↔ regexAllDigits bv = true) ∧
    (("Moderator ID must be numeric" ∉ (validateInputs f).2) ↔ regexAllDigits mv = true) ∧
    regexAllDigits "123abc" = false ∧ regexAllDigits " 123 " = false ∧
    regexAllDigits "123" = true := by
  have h1 := channelErrs_sub f
  have h2 := tokenErrs_sub f
  refine ⟨?_, ?_, by decide, by decide, by decide⟩
  · have hbc : ("Broadcaster ID must be numeric" ∈ broadcasterIdErrs f) ↔
        regexAllDigits bv = false := by
      unfold broadcasterIdErrs
      rw [hb]
      by_cases h : regexAllDigits bv <;> simp [h]
    have hmd : "Broadcaster ID must be numeric" ∉ moderatorIdErrs f := by
      unfold moderatorIdErrs
      rw [hm]
      by_cases h : regexAllDigits mv <;> simp [h]
    have hc : "Broadcaster ID must be numeric" ∉ channelErrs f := by
      rcases h1 with h | h <;> simp [h]
    have ht : "Broadcaster ID must be numeric" ∉ tokenErrs f := by
      rcases h2 with h | h <;> simp [h]
    simp [validateInputs, List.mem_append, hbc, hmd, hc, ht]
  · have hmd : ("Moderator ID must be numeric" ∈ moderatorIdErrs f) ↔
        regexAllDigits mv = false := by
      unfold moderatorIdErrs
      rw [hm]
      by_cases h : regexAllDigits mv <;> simp [h]
    have hbc : "Moderator ID must be numeric" ∉ broadcasterIdErrs f := by
      unfold broadcasterIdErrs
      rw [hb]
      by_cases h : regexAllDigits bv <;> simp [h]
    have hc : "Moderator ID must be numeric" ∉ channelErrs f := by
      rcases h1 with h | h <;> simp [h]
    have ht : "Moderator ID must be numeric" ∉ tokenErrs f := by
      rcases h2 with h | h <;> simp [h]
    simp [validateInputs, List.mem_append, hmd, hbc, hc, ht]

/-- C2 witness: amended statement instantiated at a concrete form whose
broadcaster ID is all digits and whose moderator ID is not. -/
theorem C2_amended_id_validation_witness :
    ((⟨none, none, some "123", some "45x", none, none, none, none⟩ : PIForm).twitchBroadcasterId =
      some "123") ∧
    (("Broadcaster ID must be numeric" ∉
        (validateInputs ⟨none, none, some "123", some "45x", none, none, none, none⟩).2) ↔
      regexAllDigits "123" = true) ∧
    (("Moderator ID must be numeric" ∉
        (validateInputs ⟨none, none, some "123", some "45x", none, none, none, none⟩).2) ↔
      regexAllDigits "45x" = true) := by
  have h := C2_amended_id_validation
    ⟨none, none, some "123", some "45x", none, none, none, none⟩ "123" "45x" rfl rfl
  exact ⟨rfl, h.1, h.2.1⟩

theorem jAssoc_append (l1 l2 : List (String × JVal)) (k : String) :
    jAssoc (l1 ++ l2) k =
      match jAssoc l1 k with
      | some v => some v
      | none => jAssoc l2 k := by
  induction l1 with
  | nil => simp [jAssoc]
  | cons kv rest ih =>
      obtain ⟨k1, v1⟩ := kv
      by_cases h : k1 = k <;> simp [jAssoc, h, ih]

/-- C3: whenever a numeric form field is present but parseInt yields NaN
on its value, the settings object assembled by saveSettings carries the
documented default for that field, 300 for shieldDuration, 10 for
followDuration and 3 for slowDelay; this object is both stored locally in
this.settings and, when the socket is open, sent to the host as the
setSettings payload. -/
theorem C3_defaults_on_parse_failure (f : PIForm) (p : TwitchModPI) :
    (∀ v, f.shieldDuration = some v → jsParseInt v = none →
        jAssoc (settingsPayload f) "shieldDuration" = some (JVal.jint 300)) ∧
    (∀ v, f.followDuration = some v → jsParseInt v = none →
        jAssoc (settingsPayload f) "followDuration" = some (JVal.jint 10)) ∧
    (∀ v, f.slowDelay = some v → jsParseInt v = none →
        jAssoc (settingsPayload f) "slowDelay" = some (JVal.jint 3)) ∧
    ((p.saveSettings f).1.settings = JVal.jobj (settingsPayload f)) ∧
    (sockIsOpen p.websocket = true →
      (p.saveSettings f).2 = [JVal.jobj [("event", JVal.jstr "setSettings"),
        ("context", jso p.uuid), ("payload", JVal.jobj (settingsPayload f))]]) := by
  refine ⟨?_, ?_, ?_, rfl, ?_⟩
  · intro v hv hp
    simp [settingsPayload, settingsEntry, hv, jAssoc, parseIntOr, hp]
  · intro v hv hp
    rw [settingsPayload, jAssoc_append, jAssoc_append]
    cases hs : f.shieldDuration <;>
      simp [settingsEntry, hv, hs, jAssoc, parseIntOr, hp]
  · intro v hv hp
    rw [settingsPayload, jAssoc_append, jAssoc_append]
    cases hs : f.shieldDuration <;> cases hf : f.followDuration <;>
      simp [settingsEntry, hv, hs, hf, jAssoc, parseIntOr, hp]
  · intro hopen
    simp [TwitchModPI.saveSettings, TwitchModPI.guardedSend, hopen]

/-- C3 witness: a form whose three numeric fields hold unparsable values
saves all three documented defaults. -/
theorem C3_defaults_on_parse_failure_witness :
    jsParseInt "abc" = none ∧ jsParseInt "" = none ∧ jsParseInt "x7" = none ∧
    jAssoc (settingsPayload ⟨none, none, none, none, none, some "abc", some "", some "x7"⟩)
      "shieldDuration" = some (JVal.jint 300) ∧
    jAssoc (settingsPayload ⟨none, none, none, none, none, some "abc", some "", some "x7"⟩)
      "followDuration" = some (JVal.jint 10) ∧
    jAssoc (settingsPayload ⟨none, none, none, none, none, some "abc", some "", some "x7"⟩)
      "slowDelay" = some (JVal.jint 3) := by
  have h := C3_defaults_on_parse_failure
    ⟨none, none, none, none, none, some "abc", some "", some "x7"⟩
    ⟨some ⟨ReadyState.OPEN⟩, some "u", none, JVal.jobj [], JVal.jobj []⟩
  exact ⟨by decide, by decide, by decide,
    h.1 "abc" rfl (by decide), h.2.1 "" rfl (by decide), h.2.2.1 "x7" rfl (by decide)⟩

/-- C9: when a numeric form field is present and parseInt returns the
integer zero, for example on the literal input 0, the value assembled by
saveSettings is again the default for that field, not zero, because the
or-else fallback tests JavaScript truthiness and zero is falsy. -/
theorem C9_zero_replaced_by_default (f : PIForm) :
    (∀ v, f.shieldDuration = some v → jsParseInt v = some 0 →
        jAssoc (settingsPayload f) "shieldDuration" = some (JVal.jint 300)) ∧
    (∀ v, f.followDuration = some v → jsParseInt v = some 0 →
        jAssoc (settingsPayload f) "followDuration" = some (JVal.jint 10)) ∧
    (∀ v, f.slowDelay = some v → jsParseInt v = some 0 →
        jAssoc (settingsPayload f) "slowDelay" = some (JVal.jint 3)) := by
  refine ⟨?_, ?_, ?_⟩
  · intro v hv hp
    simp [settingsPayload, settingsEntry, hv, jAssoc, parseIntOr, hp]
  · intro v hv hp
    rw [settingsPayload, jAssoc_append, jAssoc_append]
    cases hs : f.shieldDuration <;>
      simp [settingsEntry, hv, hs, jAssoc, parseIntOr, hp]
  · intro v hv hp
    rw [settingsPayload, jAssoc_append, jAssoc_append]
    cases hs : f.shieldDuration <;> cases hf : f.followDuration <;>
      simp [settingsEntry, hv, hs, hf, jAssoc, parseIntOr, hp]

/-- C9 witness: the literal input 0 parses to zero in all three fields
and each saved value is the default. -/
theorem C9_zero_replaced_by_default_witness :
    jsParseInt "0" = some 0 ∧
    jAssoc (settingsPayload ⟨none, none, none, none, none, some "0", some "0", some "0"⟩)
      "shieldDuration" = some (JVal.jint 300) ∧
    jAssoc (settingsPayload ⟨none, none, none, none, none, some "0", some "0", some "0"⟩)
      "followDuration" = some (JVal.jint 10) ∧
    jAssoc (settingsPayload ⟨none, none, none, none, none, some "0", some "0", some "0"⟩)
      "slowDelay" = some (JVal.jint 3) := by
  have h := C9_zero_replaced_by_default
    ⟨none, none, none, none, none, some "0", some "0", some "0"⟩
  exact ⟨by decide, h.1 "0" rfl (by decide), h.2.1 "0" rfl (by decide),
    h.2.2 "0" rfl (by decide)⟩

theorem pluginDispatch_none (e : String) (he : e ∉ pluginRecognizedEvents)
    (context payload0 action device deviceInfo : Option JVal) :
    pluginDispatch e context payload0 action device deviceInfo = none := by
  simp only [pluginRecognizedEvents, List.mem_cons, List.mem_singleton, not_or] at he
  obtain ⟨h1, h2, h3, h4, h5, h6, h7, h8, h9, h10, h11, h12, h13, h14, h15⟩ := he
  simp [pluginDispatch, h1, h2, h3, h4, h5, h6, h7, h8, h9, h10, h11, h12, h13, h14, h15]

/-- C5: an inbound envelope whose event is missing, not a string, or not
among the recognized event names is silently ignored by the handleMessage
of both library adapters: no handler is invoked, nothing is raised and
the state is returned unchanged; moreover the property inspector adapter
dispatches a handler only for the sendToPropertyInspector event. -/
theorem C5_unknown_event_ignored (p : StreamDeckPlugin)
    (q : StreamDeckPropertyInspector) (data : JVal)
    (h : ∀ e, data.getField "event" = some (JVal.jstr e) →
        e ∉ pluginRecognizedEvents ++ ["sendToPropertyInspector"]) :
    p.handleMessage data = (p, none) ∧ q.handleMessage data = (q, none) ∧
    (∀ (d : JVal) (q2 : StreamDeckPropertyInspector) (c : PICall),
        (q2.handleMessage d).2 = some c →
        d.getField "event" = some (JVal.jstr "sendToPropertyInspector")) := by
  refine ⟨?_, ?_, ?_⟩
  · unfold StreamDeckPlugin.handleMessage
    cases hev : data.getField "event" with
    | none => rfl
    | some x =>
        cases x with
        | jstr e =>
            have he := h e hev
            rw [List.mem_append] at he
            push_neg at he
            simp [pluginDispatch_none e he.1]
        | jnull => rfl
        | jbool b => rfl
        | jint n => rfl
        | jobj fs => rfl
  · unfold StreamDeckPropertyInspector.handleMessage
    cases hev : data.getField "event" with
    | none => rfl
    | some x =>
        cases x with
        | jstr e =>
            have he := h e hev
            rw [List.mem_append] at he
            push_neg at he
            have hne : e ≠ "sendToPropertyInspector" := by
              have := he.2
              simpa using this
            simp [hne]
        | jnull => rfl
        | jbool b => rfl
        | jint n => rfl
        | jobj fs => rfl
  · intro d q2 c hc
    unfold StreamDeckPropertyInspector.handleMessage at hc
    cases hev : d.getField "event" with
    | none => simp [hev] at hc
    | some x =>
        cases x with
        | jstr e =>
            rw [hev] at hc
            by_cases hse : e = "sendToPropertyInspector"
            · rw [hse]
            · simp [hse] at hc
        | jnull => simp [hev] at hc
        | jbool b => simp [hev] at hc
        | jint n => simp [hev] at hc
        | jobj fs => simp [hev] at hc

/-- C5 witness: a concrete envelope with an unrecognized event string is
ignored by both adapters. -/
theorem C5_unknown_event_ignored_witness :
    StreamDeckPlugin.handleMessage ⟨none, none, none⟩
      (JVal.jobj [("event", JVal.jstr "bogusEvent")]) = (⟨none, none, none⟩, none) ∧
    StreamDeckPropertyInspector.handleMessage ⟨none, none, none, none⟩
      (JVal.jobj [("event", JVal.jstr "bogusEvent")]) = (⟨none, none, none, none⟩, none) := by
  have h := C5_unknown_event_ignored ⟨none, none, none⟩ ⟨none, none, none, none⟩
    (JVal.jobj [("event", JVal.jstr "bogusEvent")])
    (by
      intro e he
      have : JVal.jstr "bogusEvent" = JVal.jstr e := by
        simpa [JVal.getField, jAssoc] using he
      have he2 : e = "bogusEvent" := by
        cases this
        rfl
      rw [he2]
      decide)
  exact ⟨h.1, h.2.1⟩

/-- C6 counterexample: the claim asserts that both username validators
accept exactly when the input with its first at-sign removed and trimmed
matches the username regex; for the input at-Ninja the stripped remainder
Ninja matches the regex, yet Utils.validateTwitchUsername rejects the
input because it applies the regex to the raw string. -/
theorem C6_counterexample :
    ¬ ((Utils.validateTwitchUsername "@Ninja" = true) ↔
        (regexUsernameTest (jsTrim (String.mk (removeFirstChar '@' "@Ninja".data))) = true)) := by
  decide

/-- C6 amended: the property inspector validator accepts exactly when the
input, after removal of its first at-sign and trimming, matches the
anchored username regex of 4 to 25 word characters, while the Utils
validator applies the regex to the raw input with no stripping or
trimming; hence at-Ninja passes the property inspector validator but
fails the Utils one, and the two-character input ab fails both. -/
theorem C6_amended_username_validation (s : String) :
    (piValidateTwitchUsername s = true ↔
      regexUsernameTest (jsTrim (String.mk (removeFirstChar '@' s.data))) = true) ∧
    (Utils.validateTwitchUsername s = true ↔
      (4 ≤ s.data.length ∧ s.data.length ≤ 25 ∧ ∀ c ∈ s.data, isWordChar c = true)) ∧
    piValidateTwitchUsername "@Ninja" = true ∧
    Utils.validateTwitchUsername "@Ninja" = false ∧
    piValidateTwitchUsername "ab" = false ∧
    Utils.validateTwitchUsername "ab" = false := by
  refine ⟨Iff.rfl, ?_, by decide, by decide, by decide, by decide⟩
  simp [Utils.validateTwitchUsername, regexUsernameTest, List.all_eq_true, and_assoc]

/-- C10: saveGlobalSettings stores for the channel exactly the trimmed
input with its first at-sign occurrence removed, wherever that occurrence
sits; a first at-sign in the middle is removed too and every later
at-sign is kept, so foo-at-bar is stored as foobar and a doubled leading
at-sign keeps its second character. -/
theorem C10_first_at_removed (f : PIForm) (v : String)
    (hv : f.twitchChannel = some v) :
    jAssoc (globalSettingsPayload f) "twitchChannel" =
      some (JVal.jstr (channelStore v)) ∧
    channelStore v = String.mk (removeFirstChar '@' (jsTrim v).data) ∧
    (∀ a b : List Char, '@' ∉ a → removeFirstChar '@' (a ++ '@' :: b) = a ++ b) ∧
    (∀ l : List Char, '@' ∉ l → removeFirstChar '@' l = l) ∧
    channelStore "foo@bar" = "foobar" ∧
    channelStore " @@name " = "@name" := by
  refine ⟨?_, rfl, ?_, ?_, by decide, by decide⟩
  · simp [globalSettingsPayload, globalEntry, hv, jAssoc]
  · exact fun a b => removeFirstChar_append a b
  · exact fun l => removeFirstChar_of_not_mem l

/-- C10 witness: concrete form with a channel input whose at-sign sits in
the middle. -/
theorem C10_first_at_removed_witness :
    ((⟨some "foo@bar", none, none, none, none, none, none, none⟩ : PIForm).twitchChannel =
      some "foo@bar") ∧
    jAssoc (globalSettingsPayload ⟨some "foo@bar", none, none, none, none, none, none, none⟩)
      "twitchChannel" = some (JVal.jstr (channelStore "foo@bar")) ∧
    channelStore "foo@bar" = "foobar" := by
  have h := C10_first_at_removed
    ⟨some "foo@bar", none, none, none, none, none, none, none⟩ "foo@bar" rfl
  exact ⟨rfl, h.1, h.2.2.2.2.1⟩

/-- C7: after testTwitchConnection runs with both the button and the
status element present, if the armed timeout callback fires with no reply
processed, the status text becomes Test timed out with class
status-error and the button is re-enabled with caption Test Connection;
if instead a connectionTest reply is processed first, the later timeout
callback finds the button already enabled and changes nothing.  The
timeout delay constant is 10000 milliseconds. -/
theorem C7_test_timeout_behaviour (ui : TestUI) (p : TwitchModPI)
    (success : Bool) (msg : Option String)
    (hb : ui.hasTestButton = true) (hs : ui.hasStatusElem = true) :
    testTimeoutMs = 10000 ∧
    ((p.testTwitchConnection ui).1.timeoutFire.statusText = "Test timed out" ∧
     (p.testTwitchConnection ui).1.timeoutFire.statusClass = "status-error" ∧
     (p.testTwitchConnection ui).1.timeoutFire.buttonDisabled = false ∧
     (p.testTwitchConnection ui).1.timeoutFire.buttonText = "Test Connection") ∧
    (((p.testTwitchConnection ui).1.handleConnectionTestResult success msg).timeoutFire =
      (p.testTwitchConnection ui).1.handleConnectionTestResult success msg) := by
  refine ⟨rfl, ?_, ?_⟩
  · simp [TwitchModPI.testTwitchConnection, TestUI.timeoutFire, hb, hs]
  · simp [TwitchModPI.testTwitchConnection, TestUI.timeoutFire,
      TestUI.handleConnectionTestResult, hb, hs]

/-- C7 witness: concrete idle test UI with both elements present. -/
theorem C7_test_timeout_behaviour_witness :
    ((⟨true, true, false, "Test Connection", "", ""⟩ : TestUI).hasTestButton = true) ∧
    ((⟨true, true, false, "Test Connection", "", ""⟩ : TestUI).hasStatusElem = true) ∧
    (testTimeoutMs = 10000 ∧
     ((TwitchModPI.testTwitchConnection ⟨none, none, none, JVal.jobj [], JVal.jobj []⟩
         ⟨true, true, false, "Test Connection", "", ""⟩).1.timeoutFire.statusText = "Test timed out" ∧
      (TwitchModPI.testTwitchConnection ⟨none, none, none, JVal.jobj [], JVal.jobj []⟩
         ⟨true, true, false, "Test Connection", "", ""⟩).1.timeoutFire.statusClass = "status-error" ∧
      (TwitchModPI.testTwitchConnection ⟨none, none, none, JVal.jobj [], JVal.jobj []⟩
         ⟨true, true, false, "Test Connection", "", ""⟩).1.timeoutFire.buttonDisabled = false ∧
      (TwitchModPI.testTwitchConnection ⟨none, none, none, JVal.jobj [], JVal.jobj []⟩
         ⟨true, true, false, "Test Connection", "", ""⟩).1.timeoutFire.buttonText = "Test Connection") ∧
     (((TwitchModPI.testTwitchConnection ⟨none, none, none, JVal.jobj [], JVal.jobj []⟩
          ⟨true, true, false, "Test Connection", "", ""⟩).1.handleConnectionTestResult true none).timeoutFire =
       (TwitchModPI.testTwitchConnection ⟨none, none, none, JVal.jobj [], JVal.jobj []⟩
          ⟨true, true, false, "Test Connection", "", ""⟩).1.handleConnectionTestResult true none)) :=
  ⟨rfl, rfl, C7_test_timeout_behaviour ⟨true, true, false, "Test Connection", "", ""⟩
    ⟨none, none, none, JVal.jobj [], JVal.jobj []⟩ true none rfl rfl⟩

/-- C8: JSON-encoding a settings mapping as the setSettings envelope of
saveSettings and JSON-decoding the text on the receiving side yields the
identical context and mapping, for every context string and mapping whose
keys need no escaping; and running saveSettings twice on identical form
state transmits the identical envelope both times and leaves the adapter
state after the second run equal to the state after the first, the only
change being the stored settings object. -/
theorem C8_roundtrip_and_idempotent_save (ctx : String)
    (kvs : List (String × Int)) (p : TwitchModPI) (f : PIForm)
    (hctx : ∀ c ∈ ctx.data, c ≠ '"')
    (hkeys : ∀ kv ∈ kvs, ∀ c ∈ kv.1.data, c ≠ '"') :
    decodeSetSettingsEnv (encodeSetSettingsEnv ctx kvs) = some (ctx, kvs) ∧
    ((p.saveSettings f).1.saveSettings f).2 = (p.saveSettings f).2 ∧
    ((p.saveSettings f).1.saveSettings f).1 = (p.saveSettings f).1 :=
  ⟨decodeSetSettingsEnv_enc ctx kvs hctx hkeys, rfl, rfl⟩

/-- C8 witness: concrete roundtrip through the envelope text and a
concrete double save. -/
theorem C8_roundtrip_and_idempotent_save_witness :
    decodeSetSettingsEnv (encodeSetSettingsEnv "uuid-9"
        [("shieldDuration", 300), ("slowDelay", -3)]) =
      some ("uuid-9", [("shieldDuration", 300), ("slowDelay", -3)]) ∧
    ((TwitchModPI.saveSettings ⟨some ⟨ReadyState.OPEN⟩, some "uuid-9", none, JVal.jobj [], JVal.jobj []⟩
        ⟨none, none, none, none, none, some "7", none, some "abc"⟩).1.saveSettings
        ⟨none, none, none, none, none, some "7", none, some "abc"⟩).2 =
      (TwitchModPI.saveSettings ⟨some ⟨ReadyState.OPEN⟩, some "uuid-9", none, JVal.jobj [], JVal.jobj []⟩
        ⟨none, none, none, none, none, some "7", none, some "abc"⟩).2 ∧
    ((TwitchModPI.saveSettings ⟨some ⟨ReadyState.OPEN⟩, some "uuid-9", none, JVal.jobj [], JVal.jobj []⟩
        ⟨none, none, none, none, none, some "7", none, some "abc"⟩).1.saveSettings
        ⟨none, none, none, none, none, some "7", none, some "abc"⟩).1 =
      (TwitchModPI.saveSettings ⟨some ⟨ReadyState.OPEN⟩, some "uuid-9", none, JVal.jobj [], JVal.jobj []⟩
        ⟨none, none, none, none, none, some "7", none, some "abc"⟩).1 :=
  C8_roundtrip_and_idempotent_save "uuid-9" [("shieldDuration", 300), ("slowDelay", -3)]
    ⟨some ⟨ReadyState.OPEN⟩, some "uuid-9", none, JVal.jobj [], JVal.jobj []⟩
    ⟨none, none, none, none, none, some "7", none, some "abc"⟩
    (by decide) (by decide)
